import Mathlib

/-!
Verification of the social-identity linking and OAuth credential lifecycle
manager (`src/social_media/services/account_service.py` and the platform
clients) against its specification.

The service code is embedded shallowly: the database session is a list of
`SocialAccount` rows, committed mutations are explicit new lists, rollbacks
return the original list, and fallible collaborator calls (platform HTTP
round-trips, OAuth refresh/revoke, the database commit itself) are passed in
as explicit outcome oracles.  Machine-level details that the claims do not
touch (logging, byte-level encryption) are abstracted but kept injective and
faithful to the control flow.
-/

/-- The platform enum (`Platform` in `platform_enums.py`, values per the spec:
facebook | instagram | twitter | tiktok | youtube). -/
inductive Platform
  | facebook
  | instagram
  | twitter
  | tiktok
  | youtube
deriving DecidableEq, Repr

/-- Embeds `Platform.value`: the lowercase string value of each enum member. -/
def Platform.value : Platform → String
  | .facebook => "facebook"
  | .instagram => "instagram"
  | .twitter => "twitter"
  | .tiktok => "tiktok"
  | .youtube => "youtube"

/-- Embeds `Platform(s)` in Python: look a platform up by its string value; `none`
models the `ValueError` raised for an unknown value. -/
def Platform.ofString : String → Option Platform
  | "facebook" => some .facebook
  | "instagram" => some .instagram
  | "twitter" => some .twitter
  | "tiktok" => some .tiktok
  | "youtube" => some .youtube
  | _ => none

/-- The list of valid platform values joined for the
`link_manual_account` error message (`", ".join([p.value for p in Platform])`). -/
def validPlatformList : String :=
  "facebook, instagram, twitter, tiktok, youtube"

/-- Errors raised by the service layer.  The Python code raises `ValueError`
for every domain error (Conflict, NotFound, Forbidden, ValidationError are
all `ValueError` with distinct messages) and `PlatformAPIError` inside the
platform clients. -/
inductive Err
  | valueError (msg : String)
  | platformAPIError (msg : String)
deriving DecidableEq, Repr

/-- Python-style outcome of a call: a returned value or a raised error. -/
inductive Res (α : Type)
  | ok (a : α)
  | err (e : Err)
deriving DecidableEq, Repr

/-- Whether a `Res` is a normal return. -/
def Res.isOk {α : Type} : Res α → Bool
  | .ok _ => true
  | .err _ => false

/-- Modelled from the spec: the CredentialStore's symmetric encryption
(`SocialAccount.encrypt_token`, not under `src/`).  Modelled as an injective
tagging of the plaintext; the claims only need encrypt/decrypt to round-trip. -/
def encrypt_token (plaintext : String) : String :=
  "enc:" ++ plaintext

/-- Modelled from the spec: the CredentialStore's symmetric decryption
(`SocialAccount.decrypt` / `get_*_token` helpers, not under `src/`);
inverse of `encrypt_token`. -/
def decrypt_token (ciphertext : String) : String :=
  ciphertext.drop 4

/-- Python's `str.lower()` as used to normalize platform names (the names
are ASCII, so per-character lowering is exact). -/
def pyLower (s : String) : String :=
  ⟨s.data.map Char.toLower⟩

/-- The `SocialAccount` entity (`social_account.py` model, fields per the
spec's data model §3).  Timestamps are integers; `platform` is stored as its
string value, exactly as the service compares it. -/
structure SocialAccount where
  id : String
  user_id : String
  platform : String
  account_id : String
  access_token : String
  refresh_token : Option String
  expires_at : Option Int
  scope : Option String
  username : Option String
  display_name : Option String
  is_verified : Bool
  last_verified_at : Option Int
deriving DecidableEq, Repr

/-- Modelled from the spec: `SocialAccount.update_tokens` (model method not
under `src/`): encrypts and stores the new access token, the optional new
refresh token, and the new expiry.  Per the spec §4.4 the batch "overlay[s]
the returned access token, refresh token ..., and new expiry". -/
def SocialAccount.update_tokens (a : SocialAccount) (access_token : String)
    (refresh_token : Option String) (expires_at : Option Int) : SocialAccount :=
  { a with
    access_token := encrypt_token access_token
    refresh_token := refresh_token.map encrypt_token
    expires_at := expires_at }

/-- Modelled from the spec: `SocialAccount.mark_verified` (model method not
under `src/`): sets `is_verified` and stamps `last_verified_at` ("on success
marks the link verified (stamping `last_verified_at`)"). -/
def SocialAccount.mark_verified (a : SocialAccount) (now : Int) : SocialAccount :=
  { a with is_verified := true, last_verified_at := some now }

/-- Modelled from the spec: `SocialAccount.get_access_token` decrypts the
stored access token. -/
def SocialAccount.get_access_token (a : SocialAccount) : String :=
  decrypt_token a.access_token

/-- Modelled from the spec: `SocialAccount.get_refresh_token` decrypts the
stored refresh token when present. -/
def SocialAccount.get_refresh_token (a : SocialAccount) : Option String :=
  a.refresh_token.map decrypt_token

/-- The database session's view of the `social_accounts` table: rows in
insertion order.  `SELECT ... first()` is `List.find?`, `db.add` appends,
`db.delete` filters, in-place mutation of a loaded row is a pointwise map. -/
abbrev Store := List SocialAccount

/-- Number of rows holding a given `(platform, platform_account_id)` pair —
the quantity the uniqueness invariant bounds by 1. -/
def pairCount (s : Store) (platform : Platform) (account_id : String) : Nat :=
  (s.filter (fun a => a.platform == platform.value && a.account_id == account_id)).length

/-- The store satisfies the spec's uniqueness invariant:
at most one link per `(platform, platform_account_id)` pair. -/
def UniquePairs (s : Store) : Prop :=
  ∀ p aid, pairCount s p aid ≤ 1

/-- Embeds `AccountService._check_duplicate_account`: first row matching
`(platform, account_id)` regardless of user. -/
def check_duplicate_account (store : Store) (platform : Platform)
    (account_id : String) : Option SocialAccount :=
  store.find? (fun a => a.platform == platform.value && a.account_id == account_id)

/-- In-place mutation of a loaded row, seen through the session: replace the
row with the matching id. -/
def replaceById (store : Store) (a' : SocialAccount) : Store :=
  store.map (fun a => if a.id == a'.id then a' else a)

/-- Embeds `AccountService.link_account`.  `newId` is the database id the insert
would assign to a freshly created row.  Returns the Python result (value or
raised error) together with the store after commit/rollback. -/
def link_account (store : Store) (user_id : String) (platform : Platform)
    (account_id : String) (access_token : String) (refresh_token : Option String)
    (expires_at : Option Int) (scope : Option String) (username : Option String)
    (display_name : Option String) (newId : String) : Res SocialAccount × Store :=
  match check_duplicate_account store platform account_id with
  | some existing =>
    if existing.user_id != user_id then
      (.err (.valueError ("Account " ++ account_id ++ " on " ++ platform.value
        ++ " is already linked to another user")), store)
    else
      let updated :=
        { existing.update_tokens access_token refresh_token expires_at with
          scope := scope, username := username, display_name := display_name }
      (.ok updated, replaceById store updated)
  | none =>
    let account : SocialAccount :=
      { id := newId, user_id := user_id, platform := platform.value
        account_id := account_id
        access_token := encrypt_token access_token
        refresh_token := refresh_token.map encrypt_token
        expires_at := expires_at, scope := scope, username := username
        display_name := display_name, is_verified := false
        last_verified_at := none }
    (.ok account, store ++ [account])

/-- Embeds `AccountService.get_user_accounts`: filtered read-only listing. -/
def get_user_accounts (store : Store) (user_id : String)
    (platform : Option Platform) (verified_only : Bool) : List SocialAccount :=
  store.filter (fun a =>
    a.user_id == user_id
    && (match platform with | some p => a.platform == p.value | none => true)
    && (!verified_only || a.is_verified))

/-- Embeds `AccountService.link_manual_account`: validates the platform name,
rejects when the user already has any account for that platform, otherwise
creates an unverified entity with the synthesized placeholder account id
`"manual_" ++ username ++ "_" ++ user_id[:8]` and an encrypted placeholder
token. -/
def link_manual_account (store : Store) (user_id platform username : String)
    (newId : String) : Res SocialAccount × Store :=
  let platform_lower := pyLower platform
  match Platform.ofString platform_lower with
  | none =>
    (.err (.valueError ("Invalid platform: " ++ platform ++ ". Valid: "
      ++ validPlatformList)), store)
  | some platform_enum =>
    if get_user_accounts store user_id (some platform_enum) false ≠ [] then
      (.err (.valueError ("A " ++ platform ++ " account is already connected")), store)
    else
      let account : SocialAccount :=
        { id := newId, user_id := user_id, platform := platform_lower
          account_id := "manual_" ++ username ++ "_" ++ user_id.take 8
          username := some username, display_name := some username
          access_token := encrypt_token "manual_link_placeholder"
          refresh_token := none, expires_at := none, scope := none
          is_verified := false, last_verified_at := none }
      (.ok account, store ++ [account])

/-- Embeds `AccountService.unlink_account`.  The token-revocation attempt is made
inside its own try/except whose handler only logs, so its outcome
(`revokeResult`, covering the `Platform(...)` parse, the token decryption and
the `oauth_service.revoke_token` call) never influences the returned value or
the deletion; the parameters are kept to mirror the call. -/
def unlink_account (store : Store) (account_id user_id : String)
    (client_id client_secret : Option String) (revoke_token : Bool)
    (revokeResult : Res Unit) : Res Bool × Store :=
  match store.find? (fun a => a.id == account_id) with
  | none => (.err (.valueError ("Account " ++ account_id ++ " not found")), store)
  | some account =>
    if account.user_id != user_id then
      (.err (.valueError "Unauthorized: Account belongs to different user"), store)
    else
      (.ok true, store.filter (fun a => a.id != account.id))

/-- Embeds `AccountService.disconnect_account`: unlink by `(user_id, platform)`
with case-insensitive platform match; returns a detached copy of the row
before deleting it. -/
def disconnect_account (store : Store) (user_id platform : String) :
    Res SocialAccount × Store :=
  let platform_lower := pyLower platform
  match store.find? (fun a => a.user_id == user_id && a.platform == platform_lower) with
  | none => (.err (.valueError ("No " ++ platform ++ " account found for user")), store)
  | some account =>
    (.ok account, store.filter (fun a => a.id != account.id))

/-- Observable lifecycle of the platform client an operation instantiates:
whether `_create_platform_client` ran and whether `client.close()` was
reached on the taken path. -/
structure ClientTrace where
  created : Bool
  closed : Bool
deriving DecidableEq, Repr

/-- Result of a service operation that instantiates a platform client:
the Python return/raise, the store after commit/rollback, and the client
lifecycle trace. -/
structure OpOutcome (α : Type) where
  result : Res α
  store : Store
  client : ClientTrace
deriving DecidableEq, Repr

/-- Embeds `AccountService.verify_account`.  `check` is the outcome of the
`client.verify_account_ownership` round-trip (a platform client is an HTTP
collaborator, so it is passed as an oracle); `commitOk` is whether
`db.commit()` succeeds; `now` stamps `mark_verified`.

The control flow is embedded statement by statement: no account → NotFound
`ValueError`; invalid stored platform value → the `Platform(...)` constructor
raises before any client exists; `_create_platform_client` succeeds for every
member of the enum; a raised ownership check or a failed commit reaches the
`except` arms, which roll back and re-raise — the `await client.close()` on
line 267 sits on the straight-line path only, so those arms never close the
client. -/
def verify_account (store : Store) (account_id : String) (check : Res Bool)
    (commitOk : Bool) (now : Int) : OpOutcome Bool :=
  match store.find? (fun a => a.id == account_id) with
  | none =>
    ⟨.err (.valueError ("Account " ++ account_id ++ " not found")), store,
      ⟨false, false⟩⟩
  | some account =>
    match Platform.ofString account.platform with
    | none =>
      ⟨.err (.valueError (account.platform ++ " is not a valid Platform")), store,
        ⟨false, false⟩⟩
    | some _ =>
      match check with
      | .err e =>
        ⟨.err (.valueError ("Failed to verify account: " ++
          (match e with | .valueError m => m | .platformAPIError m => m))),
          store, ⟨true, false⟩⟩
      | .ok true =>
        if commitOk then
          ⟨.ok true, replaceById store (account.mark_verified now), ⟨true, true⟩⟩
        else
          ⟨.err (.valueError "Failed to verify account: commit failed"), store,
            ⟨true, false⟩⟩
      | .ok false =>
        ⟨.ok false, store, ⟨true, true⟩⟩

/-- Minimal JSON values, enough for the provider profile payloads the
service inspects. -/
inductive Json
  | str (s : String)
  | num (n : Int)
  | boolean (b : Bool)
  | null
  | obj (fields : List (String × Json))
  | arr (elems : List Json)
deriving Repr, BEq

/-- Embeds `d.get(k)` on a JSON object; `none` for a missing key or a non-object. -/
def Json.get : Json → String → Option Json
  | .obj fields, k => fields.lookup k
  | _, _ => none

/-- A top-level string field of a profile payload that is Python-truthy:
`some s` exactly when the field is present, a string, and non-empty.  Every
profile field the service copies into the entity's string columns is a string
in this repository's clients, so the truthiness test specialises to
non-emptiness. -/
def strField (pd : Json) (k : String) : Option String :=
  match pd.get k with
  | some (.str s) => if s == "" then none else some s
  | _ => none

/-- Embeds `TikTokClient.get_user_profile`: posts to `/user/info/` and returns the
raw response envelope unchanged (the `data.user` extraction on lines 62-70
feeds only logging); a transport failure is rewrapped as `PlatformAPIError`.
`response` is the outcome of the underlying `self.post` call. -/
def TikTokClient.get_user_profile (response : Res Json) : Res Json :=
  match response with
  | .ok r => .ok r
  | .err e =>
    .err (.platformAPIError ("Failed to get user profile: " ++
      (match e with | .valueError m => m | .platformAPIError m => m)))

/-- Embeds `AccountService.refresh_account`.  `profile` is the outcome of
`client.get_user_profile()`.  The client is closed in a `finally`, so the
trace closes whenever it was created; the profile fields overlay the cached
`username`/`display_name` only when the top-level `username` resp.
`name`-or-`display_name` fields are truthy (lines 799-802). -/
def refresh_account (store : Store) (user_id : String) (platform : Platform)
    (profile : Res Json) (commitOk : Bool) : OpOutcome SocialAccount :=
  match (get_user_accounts store user_id (some platform) false).head? with
  | none =>
    ⟨.err (.valueError ("No " ++ platform.value ++ " account found for user")),
      store, ⟨false, false⟩⟩
  | some account =>
    match profile with
    | .err e =>
      ⟨.err (.valueError ("Failed to refresh account: " ++
        (match e with | .valueError m => m | .platformAPIError m => m))),
        store, ⟨true, true⟩⟩
    | .ok pd =>
      let account' :=
        { account with
          username :=
            match strField pd "username" with
            | some s => some s
            | none => account.username
          display_name :=
            match strField pd "name" with
            | some s => some s
            | none =>
              match strField pd "display_name" with
              | some s => some s
              | none => account.display_name }
      if commitOk then
        ⟨.ok account', replaceById store account', ⟨true, true⟩⟩
      else
        ⟨.err (.valueError "Failed to refresh account: commit failed"), store,
          ⟨true, true⟩⟩

/-- Embeds `TikTokClient.verify_follow` (lines 193-218): logs a warning and returns
`False` unconditionally — TikTok API v2 has no following-list endpoint. -/
def TikTokClient.verify_follow (target_user_id : String) : Res Bool :=
  .ok false

/-- Embeds `TikTokClient.verify_video_engagement` (lines 220-253): logs a warning
and returns `False` unconditionally. -/
def TikTokClient.verify_video_engagement (video_id engagement_type : String) :
    Res Bool :=
  .ok false

/-- Modelled from the spec: `BaseClient.verify_comment` (`base_client.py` is
not under `src/`).  `TikTokClient` defines no `verify_comment` of its own, so
the call resolves to the base capability contract, which per the spec returns
a deterministic typed `false` for an unsupported check, never an error. -/
def BaseClient.verify_comment (video_id : String) : Res Bool :=
  .ok false

/-- Embeds `TikTokClient.verify_comment`: inherited from `BaseClient`. -/
def TikTokClient.verify_comment (video_id : String) : Res Bool :=
  BaseClient.verify_comment video_id

/-- Embeds `YouTubeClient.verify_comment` (lines 340-366): logs a warning and
returns `False` unconditionally. -/
def YouTubeClient.verify_comment (video_id : String) : Res Bool :=
  .ok false

/-- The aggregate counters `{"success": _, "failed": _, "skipped": _}`
returned by `refresh_all_tokens`. -/
structure RefreshStats where
  success : Nat
  failed : Nat
  skipped : Nat
deriving DecidableEq, Repr

/-- The token payload returned by `OAuthService.refresh_token`
(`{access_token, refresh_token?, expires_at?}` per the spec §6); a missing
`access_token` key would raise inside the per-item `try` and is therefore
part of the oracle's error case. -/
structure TokenData where
  access_token : String
  refresh_token : Option String
  expires_at : Option Int
deriving DecidableEq, Repr

/-- The candidate query of `refresh_all_tokens` (lines 604-608):
`expires_at` non-null and at most the threshold, `refresh_token` non-null. -/
def isRefreshCandidate (threshold : Int) (a : SocialAccount) : Bool :=
  (match a.expires_at with
   | some t => decide (t ≤ threshold)
   | none => false)
  && a.refresh_token.isSome

/-- Per-candidate outcome of one iteration of the refresh loop. -/
inductive ItemOutcome
  | success (a' : SocialAccount)
  | skipped
  | failed
deriving DecidableEq, Repr

/-- Whether an iteration incremented the `success` counter. -/
def ItemOutcome.isSuccess : ItemOutcome → Bool
  | .success _ => true
  | _ => false

/-- Whether an iteration incremented the `skipped` counter. -/
def ItemOutcome.isSkipped : ItemOutcome → Bool
  | .skipped => true
  | _ => false

/-- Whether an iteration incremented the `failed` counter. -/
def ItemOutcome.isFailed : ItemOutcome → Bool
  | .failed => true
  | _ => false

/-- The row an iteration leaves in the session: mutated on success,
untouched otherwise. -/
def ItemOutcome.row (a : SocialAccount) : ItemOutcome → SocialAccount
  | .success a' => a'
  | _ => a

/-- The body of the per-candidate loop of `refresh_all_tokens`
(lines 615-661), run inside its own `try`: an invalid stored platform value
(`Platform(...)` raises), like any other exception, is caught and counted as
`failed`; a platform whose config does not support refresh tokens, or an
absent/empty decrypted refresh token, is `skipped`; otherwise the
`oauth_service.refresh_token` outcome (`oracle`) decides between a mutated
row (`update_tokens`, falling back to the prior plain refresh token when the
provider omits one) and `failed`.  `supports_refresh` is
`get_platform_config(p).supports_refresh_token` (modelled from the spec:
`platform_enums.py` is not under `src/`). -/
def refresh_item (supports_refresh : Platform → Bool)
    (oracle : SocialAccount → Res TokenData) (account : SocialAccount) :
    ItemOutcome :=
  match Platform.ofString account.platform with
  | none => .failed
  | some p =>
    if !supports_refresh p then .skipped
    else
      match account.get_refresh_token with
      | none => .skipped
      | some rt =>
        if rt == "" then .skipped
        else
          match oracle account with
          | .err _ => .failed
          | .ok td =>
            .success (account.update_tokens td.access_token
              (some (td.refresh_token.getD rt)) td.expires_at)

/-- One iteration of the refresh loop seen from the whole table: `none` for
a row the candidate query does not select, otherwise the loop body's
outcome. -/
def refreshItemOpt (threshold : Int) (supports_refresh : Platform → Bool)
    (oracle : SocialAccount → Res TokenData) (a : SocialAccount) :
    Option ItemOutcome :=
  if isRefreshCandidate threshold a then
    some (refresh_item supports_refresh oracle a)
  else none

/-- The row left in the session after the scan visits (or skips) `a`. -/
def refreshRow (threshold : Int) (supports_refresh : Platform → Bool)
    (oracle : SocialAccount → Res TokenData) (a : SocialAccount) :
    SocialAccount :=
  match refreshItemOpt threshold supports_refresh oracle a with
  | some o => o.row a
  | none => a

/-- Embeds `AccountService.refresh_all_tokens`.  The threshold is
`utcnow() + timedelta(hours=hours_before_expiry)` with `now` the current
time in seconds.  Candidates are scanned in store order; the three counters
accumulate one increment per candidate, expressed as counts of the per-item
outcomes; mutations live in the session and are committed once at the end —
a failing final commit (or candidate query) reaches the outer `except`,
rolls everything back and re-raises a wrapped `ValueError` (lines 675-681). -/
def refresh_all_tokens (store : Store) (now : Int) (hours_before_expiry : Int)
    (supports_refresh : Platform → Bool)
    (oracle : SocialAccount → Res TokenData) (commitOk : Bool) :
    Res RefreshStats × Store :=
  let threshold := now + hours_before_expiry * 3600
  let stats : RefreshStats :=
    { success := store.countP (fun a =>
        ((refreshItemOpt threshold supports_refresh oracle a).map ItemOutcome.isSuccess).getD false)
      failed := store.countP (fun a =>
        ((refreshItemOpt threshold supports_refresh oracle a).map ItemOutcome.isFailed).getD false)
      skipped := store.countP (fun a =>
        ((refreshItemOpt threshold supports_refresh oracle a).map ItemOutcome.isSkipped).getD false) }
  if commitOk then
    (.ok stats, store.map (refreshRow threshold supports_refresh oracle))
  else (.err (.valueError "Failed to refresh tokens"), store)

/-- Row ids are unique in the store (database primary keys). -/
def UniqueIds (s : Store) : Prop :=
  s.Pairwise (fun a b => a.id ≠ b.id)

/-- Every verified row of `s'` was already verified (same id) in `s`: the
relation expressing that an operation never upgrades `is_verified` to
`true`. -/
def VerifiedOnlyFrom (s s' : Store) : Prop :=
  ∀ a' ∈ s', a'.is_verified = true → ∃ a ∈ s, a.id = a'.id ∧ a.is_verified = true

/-- Fixture: an unverified Twitter link used to exercise `verify_account`. -/
def c2Acct : SocialAccount :=
  { id := "a1", user_id := "u1", platform := "twitter", account_id := "acct_1"
    access_token := encrypt_token "tok1", refresh_token := none
    expires_at := none, scope := none, username := some "olduser"
    display_name := some "Old Name", is_verified := false
    last_verified_at := none }

/-- Fixture: a linked account used to exercise `unlink_account`. -/
def c5Acct : SocialAccount :=
  { id := "a5", user_id := "u1", platform := "facebook", account_id := "fb_1"
    access_token := encrypt_token "tok5", refresh_token := none
    expires_at := none, scope := none, username := none
    display_name := none, is_verified := true, last_verified_at := some 7 }

/-- Fixture: a linked account used to exhibit the client leak in
`verify_account`. -/
def c6Acct : SocialAccount :=
  { id := "a6", user_id := "u1", platform := "twitter", account_id := "acct_6"
    access_token := encrypt_token "tok6", refresh_token := none
    expires_at := none, scope := none, username := none
    display_name := none, is_verified := false, last_verified_at := none }

/-- Fixture: a verified TikTok link with cached profile fields. -/
def c9Acct : SocialAccount :=
  { id := "a9", user_id := "u1", platform := "tiktok", account_id := "open1"
    access_token := encrypt_token "tok9", refresh_token := none
    expires_at := none, scope := none, username := some "oldhandle"
    display_name := some "Old Name", is_verified := true
    last_verified_at := some 3 }

/-- Fixture: a live TikTok `/user/info/` response whose profile fields sit
nested under `data.user`, as `TikTokClient.get_user_profile` returns them. -/
def c9TikTokResp : Json :=
  Json.obj [("data", Json.obj [("user", Json.obj
    [("open_id", Json.str "open1"), ("display_name", Json.str "New Name")])])]

/-- Fixture: an existing Twitter link of user `u1`, target of C1's and C10's
`link_account` scenarios. -/
def c1Acct : SocialAccount :=
  { id := "a0", user_id := "u1", platform := "twitter", account_id := "acct_1"
    access_token := encrypt_token "tok1", refresh_token := none
    expires_at := none, scope := some "read", username := some "olduser"
    display_name := some "Old Name", is_verified := false
    last_verified_at := none }

/-- Store after `link_manual_account("user_aaa1", "tiktok", "handle")` from
an empty store. -/
def c1Store1 : Store :=
  (link_manual_account [] "user_aaa1" "tiktok" "handle" "m1").2

/-- Store after a second `link_manual_account("user_aaa2", "tiktok",
"handle")` by a different user whose id shares the first 8 characters. -/
def c1Store2 : Store :=
  (link_manual_account c1Store1 "user_aaa2" "tiktok" "handle" "m2").2

/-- Fixture: a refresh candidate whose provider refresh succeeds. -/
def c3AcctOk : SocialAccount :=
  { id := "r1", user_id := "u1", platform := "facebook", account_id := "fb_r1"
    access_token := encrypt_token "tokA", refresh_token := some (encrypt_token "refA")
    expires_at := some 100, scope := none, username := none
    display_name := none, is_verified := false, last_verified_at := none }

/-- Fixture: a refresh candidate whose provider refresh throws. -/
def c3AcctBad : SocialAccount :=
  { id := "r2", user_id := "u2", platform := "facebook", account_id := "fb_r2"
    access_token := encrypt_token "tokB", refresh_token := some (encrypt_token "refB")
    expires_at := some 200, scope := none, username := none
    display_name := none, is_verified := false, last_verified_at := none }

/-- Fixture: a non-candidate (no expiry) untouched by the batch. -/
def c3AcctFar : SocialAccount :=
  { id := "r3", user_id := "u3", platform := "facebook", account_id := "fb_r3"
    access_token := encrypt_token "tokC", refresh_token := some (encrypt_token "refC")
    expires_at := none, scope := none, username := none
    display_name := none, is_verified := false, last_verified_at := none }

/-- Fixture oracle: the provider refresh succeeds for `r1` with a rotated
token pair and throws for every other row. -/
def c3Oracle : SocialAccount → Res TokenData := fun a =>
  if a.id == "r1" then .ok { access_token := "newA", refresh_token := some "newRefA", expires_at := some 9000 }
  else .err (.valueError "provider 500")

theorem Platform.value_injective : ∀ {p q : Platform}, p.value = q.value → p = q := by
  intro p q h
  cases p <;> cases q <;> first | rfl | (exact absurd h (by decide))

theorem head?_mem {α : Type} {l : List α} {a : α} (h : l.head? = some a) : a ∈ l := by
  cases l with
  | nil => simp at h
  | cons x xs =>
    simp only [List.head?_cons, Option.some.injEq] at h
    exact h ▸ List.mem_cons_self x xs

theorem verifiedOnlyFrom_refl (s : Store) : VerifiedOnlyFrom s s :=
  fun a ha hv => ⟨a, ha, rfl, hv⟩

theorem verifiedOnlyFrom_filter (s : Store) (p : SocialAccount → Bool) :
    VerifiedOnlyFrom s (s.filter p) :=
  fun a ha hv => ⟨a, List.mem_of_mem_filter ha, rfl, hv⟩

theorem verifiedOnlyFrom_append_unverified (s : Store) (a0 : SocialAccount)
    (h : a0.is_verified = false) : VerifiedOnlyFrom s (s ++ [a0]) := by
  intro a' ha' hv
  rcases List.mem_append.mp ha' with h1 | h2
  · exact ⟨a', h1, rfl, hv⟩
  · rw [List.mem_singleton.mp h2] at hv
    rw [h] at hv
    exact absurd hv (by simp)

theorem verifiedOnlyFrom_map (s : Store) (f : SocialAccount → SocialAccount)
    (hf : ∀ a ∈ s, (f a).id = a.id ∧ (f a).is_verified = a.is_verified) :
    VerifiedOnlyFrom s (s.map f) := by
  intro a' ha' hav
  rcases List.mem_map.mp ha' with ⟨a, ha, hfa⟩
  obtain ⟨h1, h2⟩ := hf a ha
  subst hfa
  exact ⟨a, ha, h1.symm, h2 ▸ hav⟩

theorem verifiedOnlyFrom_replaceById (s : Store) (e u : SocialAccount)
    (he : e ∈ s) (hid : u.id = e.id) (hv : u.is_verified = e.is_verified) :
    VerifiedOnlyFrom s (replaceById s u) := by
  intro a' ha' hav
  unfold replaceById at ha'
  rcases List.mem_map.mp ha' with ⟨a, ha, hfa⟩
  by_cases hcase : (a.id == u.id) = true
  · rw [if_pos hcase] at hfa
    subst hfa
    exact ⟨e, he, hid.symm, by rw [← hv]; exact hav⟩
  · rw [if_neg hcase] at hfa
    subst hfa
    exact ⟨a, ha, rfl, hav⟩

theorem link_account_verifiedOnlyFrom (store : Store) (u : String) (pl : Platform)
    (aid tok : String) (rtk : Option String) (ea : Option Int)
    (sc un dn : Option String) (nid : String) :
    VerifiedOnlyFrom store (link_account store u pl aid tok rtk ea sc un dn nid).2 := by
  unfold link_account
  cases hdup : check_duplicate_account store pl aid with
  | some existing =>
    by_cases hu : (existing.user_id != u) = true
    · simp only [hu, if_true]
      exact verifiedOnlyFrom_refl store
    · simp only [hu, if_false, Bool.false_eq_true]
      exact verifiedOnlyFrom_replaceById store existing _
        (List.mem_of_find?_eq_some hdup) rfl rfl
  | none =>
    exact verifiedOnlyFrom_append_unverified store _ rfl

theorem link_manual_account_verifiedOnlyFrom (store : Store)
    (u pl un nid : String) :
    VerifiedOnlyFrom store (link_manual_account store u pl un nid).2 := by
  unfold link_manual_account
  cases hplat : Platform.ofString (pyLower pl) with
  | none =>
    simp only [hplat]
    exact verifiedOnlyFrom_refl store
  | some p =>
    simp only [hplat]
    by_cases hex : get_user_accounts store u (some p) false ≠ []
    · rw [if_pos hex]
      exact verifiedOnlyFrom_refl store
    · rw [if_neg hex]
      exact verifiedOnlyFrom_append_unverified store _ rfl

theorem unlink_account_verifiedOnlyFrom (store : Store) (aid u : String)
    (ci cs : Option String) (rv : Bool) (rr : Res Unit) :
    VerifiedOnlyFrom store (unlink_account store aid u ci cs rv rr).2 := by
  unfold unlink_account
  cases hfind : store.find? (fun a => a.id == aid) with
  | none => exact verifiedOnlyFrom_refl store
  | some account =>
    by_cases hu : (account.user_id != u) = true
    · simp only [hu, if_true]
      exact verifiedOnlyFrom_refl store
    · simp only [hu, if_false, Bool.false_eq_true]
      exact verifiedOnlyFrom_filter store _

theorem disconnect_account_verifiedOnlyFrom (store : Store) (u pl : String) :
    VerifiedOnlyFrom store (disconnect_account store u pl).2 := by
  unfold disconnect_account
  cases hfind : store.find? (fun a => a.user_id == u && a.platform == pyLower pl) with
  | none =>
    simp only [hfind]
    exact verifiedOnlyFrom_refl store
  | some account =>
    simp only [hfind]
    exact verifiedOnlyFrom_filter store _

theorem refresh_account_verifiedOnlyFrom (store : Store) (u : String)
    (pl : Platform) (profile : Res Json) (commitOk : Bool) :
    VerifiedOnlyFrom store (refresh_account store u pl profile commitOk).store := by
  unfold refresh_account
  cases hfind : (get_user_accounts store u (some pl) false).head? with
  | none => exact verifiedOnlyFrom_refl store
  | some account =>
    have hmem : account ∈ store :=
      List.mem_of_mem_filter (head?_mem hfind)
    cases profile with
    | err e => exact verifiedOnlyFrom_refl store
    | ok pd =>
      by_cases hc : commitOk
      · simp only [hc, if_true]
        exact verifiedOnlyFrom_replaceById store account _ hmem rfl rfl
      · simp only [hc, if_false]
        exact verifiedOnlyFrom_refl store

theorem refresh_item_row_preserves (sup : Platform → Bool)
    (orc : SocialAccount → Res TokenData) (a : SocialAccount) :
    ((refresh_item sup orc a).row a).id = a.id ∧
    ((refresh_item sup orc a).row a).is_verified = a.is_verified := by
  unfold refresh_item
  cases Platform.ofString a.platform with
  | none => exact ⟨rfl, rfl⟩
  | some p =>
    by_cases hs : (!sup p) = true
    · simp only [hs, if_true]; exact ⟨rfl, rfl⟩
    · simp only [hs, if_false, Bool.false_eq_true]
      cases a.get_refresh_token with
      | none => exact ⟨rfl, rfl⟩
      | some rt =>
        by_cases he : (rt == "") = true
        · simp only [he, if_true]; exact ⟨rfl, rfl⟩
        · simp only [he, if_false, Bool.false_eq_true]
          cases orc a with
          | err e => exact ⟨rfl, rfl⟩
          | ok td => exact ⟨rfl, rfl⟩

theorem refreshRow_preserves (th : Int) (sup : Platform → Bool)
    (orc : SocialAccount → Res TokenData) (a : SocialAccount) :
    (refreshRow th sup orc a).id = a.id ∧
    (refreshRow th sup orc a).is_verified = a.is_verified := by
  unfold refreshRow refreshItemOpt
  by_cases hcand : isRefreshCandidate th a = true
  · rw [if_pos hcand]
    exact refresh_item_row_preserves sup orc a
  · rw [if_neg hcand]
    exact ⟨rfl, rfl⟩

theorem refresh_all_tokens_verifiedOnlyFrom (store : Store) (now hours : Int)
    (sup : Platform → Bool) (orc : SocialAccount → Res TokenData)
    (commitOk : Bool) :
    VerifiedOnlyFrom store (refresh_all_tokens store now hours sup orc commitOk).2 := by
  unfold refresh_all_tokens
  by_cases hc : commitOk
  · simp only [hc, if_true]
    exact verifiedOnlyFrom_map store _ (fun a _ => refreshRow_preserves _ sup orc a)
  · simp only [hc, if_false]
    exact verifiedOnlyFrom_refl store

/-- C4: calling `verify_follow`, `verify_comment`, or
`verify_video_engagement` on the TikTok client and `verify_comment` on the
YouTube client returns `false` and never raises, for every input — the
capability gap is a deterministic typed `false`, not an error. -/
theorem C4_capability_gap_determinism
    (target_user_id video_id engagement_type tvid yvid : String) :
    TikTokClient.verify_follow target_user_id = .ok false
    ∧ TikTokClient.verify_video_engagement video_id engagement_type = .ok false
    ∧ TikTokClient.verify_comment tvid = .ok false
    ∧ YouTubeClient.verify_comment yvid = .ok false :=
  ⟨rfl, rfl, rfl, rfl⟩

/-- C10: when `link_account` finds the `(platform, account_id)` pair already
linked to the same user, it unconditionally overwrites `scope`, `username`
and `display_name` of the existing entity with the arguments passed — in
particular passing `none` erases previously stored values; no non-empty
guard of the kind `refresh_account` applies is involved. -/
theorem C10_relink_overwrites_profile_fields
    (store : Store) (u : String) (pl : Platform) (aid tok : String)
    (rtk : Option String) (ea : Option Int) (sc un dn : Option String)
    (nid : String) (existing : SocialAccount)
    (hdup : check_duplicate_account store pl aid = some existing)
    (huser : existing.user_id = u) :
    ∃ updated,
      link_account store u pl aid tok rtk ea sc un dn nid =
        (.ok updated, replaceById store updated)
      ∧ updated.scope = sc ∧ updated.username = un ∧ updated.display_name = dn
      ∧ updated.id = existing.id
      ∧ updated.is_verified = existing.is_verified := by
  have hne : (existing.user_id != u) = false := by
    simp [bne, huser]
  unfold link_account
  simp only [hdup, hne, Bool.false_eq_true, if_false]
  exact ⟨_, rfl, rfl, rfl, rfl, rfl, rfl⟩

/-- Witness for C10: re-linking `acct_1` for its owner with all optional
fields omitted erases the previously stored scope, username and
display name. -/
theorem C10_relink_overwrites_profile_fields_witness :
    ∃ updated,
      link_account [c1Acct] "u1" .twitter "acct_1" "tok2" none none none none none "n2" =
        (.ok updated, replaceById [c1Acct] updated)
      ∧ updated.scope = none ∧ updated.username = none ∧ updated.display_name = none
      ∧ updated.id = c1Acct.id ∧ updated.is_verified = c1Acct.is_verified :=
  C10_relink_overwrites_profile_fields [c1Acct] "u1" .twitter "acct_1" "tok2"
    none none none none none "n2" c1Acct rfl rfl

/-- C8: `link_manual_account` validates the platform name against the enum
(raising a ValidationError listing the valid values), rejects a user who
already has any account for the platform with "already connected", and
otherwise creates an unverified entity whose `platform_account_id` is
`"manual_" ++ username ++ "_" ++` the first 8 characters of the user id. -/
theorem C8_link_manual_account_contract
    (store : Store) (user_id platform username nid : String) :
    (Platform.ofString (pyLower platform) = none →
      link_manual_account store user_id platform username nid =
        (.err (.valueError ("Invalid platform: " ++ platform ++ ". Valid: "
          ++ validPlatformList)), store))
    ∧ (∀ p, Platform.ofString (pyLower platform) = some p →
        get_user_accounts store user_id (some p) false ≠ [] →
        link_manual_account store user_id platform username nid =
          (.err (.valueError ("A " ++ platform ++ " account is already connected")),
            store))
    ∧ (∀ p, Platform.ofString (pyLower platform) = some p →
        get_user_accounts store user_id (some p) false = [] →
        ∃ account,
          link_manual_account store user_id platform username nid =
            (.ok account, store ++ [account])
          ∧ account.is_verified = false
          ∧ account.account_id = "manual_" ++ username ++ "_" ++ user_id.take 8
          ∧ account.username = some username
          ∧ account.display_name = some username
          ∧ account.platform = pyLower platform
          ∧ account.access_token = encrypt_token "manual_link_placeholder") := by
  refine ⟨fun hnone => ?_, fun p hp hex => ?_, fun p hp hemp => ?_⟩
  · unfold link_manual_account
    simp only [hnone]
  · unfold link_manual_account
    simp only [hp]
    rw [if_pos hex]
  · unfold link_manual_account
    simp only [hp]
    rw [if_neg (by simp [hemp])]
    exact ⟨_, rfl, rfl, rfl, rfl, rfl, rfl, rfl⟩

/-- Witness for C8: the spec's scenario —
`link_manual_account("u3","tiktok","handle")` yields an unverified entity
with synthesized account id `"manual_handle_u3"`. -/
theorem C8_link_manual_account_contract_witness :
    ∃ account,
      link_manual_account [] "u3" "tiktok" "handle" "m3" =
        (.ok account, [] ++ [account])
      ∧ account.is_verified = false
      ∧ account.account_id = "manual_handle_u3" := by
  obtain ⟨account, h1, h2, h3, -⟩ :=
    (C8_link_manual_account_contract [] "u3" "tiktok" "handle" "m3").2.2 .tiktok (by decide) rfl
  refine ⟨account, h1, h2, ?_⟩
  rw [h3]
  decide

/-- C5: `unlink_account` with a caller different from the link's owner
raises the Forbidden error and leaves the store (hence the entity)
unmodified; the owner's call deletes the entity and returns `True` for every
possible outcome of the best-effort token-revocation call, whose failure is
swallowed and never blocks the deletion. -/
theorem C5_unlink_authorization
    (store : Store) (account_id user_id : String)
    (client_id client_secret : Option String) (revoke_token : Bool)
    (revokeResult : Res Unit) (account : SocialAccount)
    (hfind : store.find? (fun a => a.id == account_id) = some account) :
    (account.user_id ≠ user_id →
      unlink_account store account_id user_id client_id client_secret
          revoke_token revokeResult =
        (.err (.valueError "Unauthorized: Account belongs to different user"), store))
    ∧ (account.user_id = user_id →
      unlink_account store account_id user_id client_id client_secret
          revoke_token revokeResult =
        (.ok true, store.filter (fun a => a.id != account.id))) := by
  constructor
  · intro hne
    have hb : (account.user_id != user_id) = true := by
      simp [bne, hne]
    unfold unlink_account
    simp only [hfind, hb, if_true]
  · intro heq
    have hb : (account.user_id != user_id) = false := by
      simp [bne, heq]
    unfold unlink_account
    simp only [hfind, hb, Bool.false_eq_true, if_false]

/-- Witness for C5: a wrong-user unlink fails Forbidden and changes nothing;
the owner's unlink deletes the row even though the revocation call threw. -/
theorem C5_unlink_authorization_witness :
    unlink_account [c5Acct] "a5" "u2" none none true (.ok ()) =
      (.err (.valueError "Unauthorized: Account belongs to different user"), [c5Acct])
    ∧ unlink_account [c5Acct] "a5" "u1" (some "cid") (some "sec") true
        (.err (.valueError "revoke failed")) =
      (.ok true, []) := by
  have h1 := (C5_unlink_authorization [c5Acct] "a5" "u2" none none true (.ok ())
    c5Acct rfl).1 (by decide)
  have h2 := (C5_unlink_authorization [c5Acct] "a5" "u1" (some "cid") (some "sec")
    true (.err (.valueError "revoke failed")) c5Acct rfl).2 rfl
  exact ⟨h1, h2.trans (by decide)⟩

/-- C6: the claim says every platform client created in `verify_account` and
`refresh_account` is closed on every exit path.  Evaluating the embedded
`verify_account` shows the client is created but NOT closed when the
ownership round-trip raises, and when the commit after a successful check
raises — `await client.close()` sits only on the straight-line path (there
is no `try/finally` in `verify_account`, unlike `refresh_account`, whose
`finally` does close the client even when the profile fetch raises). -/
theorem C6_client_leak_on_exception :
    (verify_account [c6Acct] "a6" (.err (.platformAPIError "timeout")) true 0).client
      = ⟨true, false⟩
    ∧ (verify_account [c6Acct] "a6" (.ok true) false 0).client = ⟨true, false⟩
    ∧ (verify_account [c6Acct] "a6" (.ok false) true 0).client = ⟨true, true⟩
    ∧ (refresh_account [c6Acct] "u1" .twitter (.err (.platformAPIError "timeout"))
        true).client = ⟨true, true⟩ :=
  ⟨rfl, rfl, rfl, rfl⟩

/-- Counterexample for C7: `refresh_all_tokens` does not return counts for
every input — when the final `db.commit()` raises, the outer `except`
re-raises a wrapped `ValueError` to the caller (lines 675-681). -/
theorem C7_cx_batch_refresh_raises :
    (refresh_all_tokens [c3AcctOk] 0 24 (fun _ => true) c3Oracle false).1 =
      .err (.valueError "Failed to refresh tokens") :=
  rfl

/-- C2: `is_verified` becomes `true` only through a successful
`verify_account` ownership round-trip, which marks the link verified,
stamps `last_verified_at` and commits; a check that returns `false` makes
`verify_account` return `false` and leaves the store entirely untouched (in
particular it never flips `is_verified` from `true` to `false` and never
sets `last_verified_at`); and no other operation of the service upgrades any
row's `is_verified` to `true`. -/
theorem C2_verification_monotonicity
    (store : Store) (aid : String) (commitOk : Bool) (now : Int)
    (account : SocialAccount) (p : Platform)
    (hfind : store.find? (fun a => a.id == aid) = some account)
    (hplat : Platform.ofString account.platform = some p) :
    (verify_account store aid (.ok false) commitOk now =
      ⟨.ok false, store, ⟨true, true⟩⟩)
    ∧ (verify_account store aid (.ok true) true now =
      ⟨.ok true, replaceById store (account.mark_verified now), ⟨true, true⟩⟩)
    ∧ ((account.mark_verified now).is_verified = true
      ∧ (account.mark_verified now).last_verified_at = some now
      ∧ (account.mark_verified now).id = account.id
      ∧ (account.mark_verified now).user_id = account.user_id)
    ∧ (∀ u pl aid2 tok rtk ea sc un dn nid,
        VerifiedOnlyFrom store (link_account store u pl aid2 tok rtk ea sc un dn nid).2)
    ∧ (∀ u pl un nid,
        VerifiedOnlyFrom store (link_manual_account store u pl un nid).2)
    ∧ (∀ u pl prof cOk,
        VerifiedOnlyFrom store (refresh_account store u pl prof cOk).store)
    ∧ (∀ n h sup orc cOk,
        VerifiedOnlyFrom store (refresh_all_tokens store n h sup orc cOk).2)
    ∧ (∀ aid2 u ci cs rv rr,
        VerifiedOnlyFrom store (unlink_account store aid2 u ci cs rv rr).2)
    ∧ (∀ u pl, VerifiedOnlyFrom store (disconnect_account store u pl).2) := by
  refine ⟨?_, ?_, ⟨rfl, rfl, rfl, rfl⟩,
    link_account_verifiedOnlyFrom store,
    link_manual_account_verifiedOnlyFrom store,
    refresh_account_verifiedOnlyFrom store,
    refresh_all_tokens_verifiedOnlyFrom store,
    unlink_account_verifiedOnlyFrom store,
    disconnect_account_verifiedOnlyFrom store⟩
  · unfold verify_account
    simp only [hfind, hplat]
  · unfold verify_account
    simp only [hfind, hplat, if_true]

/-- Witness for C2: on the unverified Twitter fixture, a failed ownership
check returns `false` and leaves the single row untouched; a successful
check marks it verified with `last_verified_at = 5`. -/
theorem C2_verification_monotonicity_witness :
    verify_account [c2Acct] "a1" (.ok false) true 5 =
      ⟨.ok false, [c2Acct], ⟨true, true⟩⟩
    ∧ verify_account [c2Acct] "a1" (.ok true) true 5 =
      ⟨.ok true, [c2Acct.mark_verified 5], ⟨true, true⟩⟩ := by
  have h := C2_verification_monotonicity [c2Acct] "a1" true 5 c2Acct .twitter rfl rfl
  exact ⟨h.1, h.2.1.trans (by decide)⟩

/-- Counterexample for C9: for a TikTok link, `refresh_account` does NOT
overlay `display_name` even though the fetched live profile carries the
non-empty value `"New Name"` — `TikTokClient.get_user_profile` returns the
raw envelope with the fields nested under `data.user`, while
`refresh_account` reads only top-level `username`/`name`/`display_name`
keys, so the cached `"Old Name"` survives unchanged. -/
theorem C9_cx_tiktok_nested_profile_not_overlaid :
    ((c9TikTokResp.get "data").bind (fun d => d.get "user")).bind
        (fun u => u.get "display_name") = some (Json.str "New Name")
    ∧ "New Name" ≠ ""
    ∧ refresh_account [c9Acct] "u1" .tiktok
        (TikTokClient.get_user_profile (.ok c9TikTokResp)) true =
      ⟨.ok c9Acct, [c9Acct], ⟨true, true⟩⟩
    ∧ c9Acct.display_name = some "Old Name" :=
  ⟨rfl, by decide, rfl, rfl⟩

/-- C9 (amended): `refresh_account` overlays the cached `username` exactly
when the profile dict's top-level `username` field is a non-empty string,
and the cached `display_name` exactly when the top-level `name` or (as
fallback) `display_name` field is; it never overwrites either field with an
empty or missing value and changes no other field.  (For TikTok, whose
profile response nests these fields under `data.user`, the condition is
never met, so the overlay never fires.) -/
theorem C9_refresh_profile_overlay
    (store : Store) (user_id : String) (platform : Platform) (pd : Json)
    (account : SocialAccount)
    (hfind : (get_user_accounts store user_id (some platform) false).head? =
      some account) :
    ∃ account',
      refresh_account store user_id platform (.ok pd) true =
        ⟨.ok account', replaceById store account', ⟨true, true⟩⟩
      ∧ (∀ s, pd.get "username" = some (.str s) → s ≠ "" →
          account'.username = some s)
      ∧ (strField pd "username" = none → account'.username = account.username)
      ∧ (∀ s, pd.get "name" = some (.str s) → s ≠ "" →
          account'.display_name = some s)
      ∧ (strField pd "name" = none →
          ∀ s, pd.get "display_name" = some (.str s) → s ≠ "" →
            account'.display_name = some s)
      ∧ (strField pd "name" = none → strField pd "display_name" = none →
          account'.display_name = account.display_name)
      ∧ account'.id = account.id
      ∧ account'.user_id = account.user_id
      ∧ account'.platform = account.platform
      ∧ account'.account_id = account.account_id
      ∧ account'.access_token = account.access_token
      ∧ account'.refresh_token = account.refresh_token
      ∧ account'.expires_at = account.expires_at
      ∧ account'.scope = account.scope
      ∧ account'.is_verified = account.is_verified
      ∧ account'.last_verified_at = account.last_verified_at := by
  unfold refresh_account
  simp only [hfind, if_true]
  refine ⟨_, rfl, ?_, ?_, ?_, ?_, ?_, rfl, rfl, rfl, rfl, rfl, rfl, rfl, rfl, rfl, rfl⟩
  · intro s hs hne
    have hb : (s == "") = false := beq_eq_false_iff_ne.mpr hne
    have hsf : strField pd "username" = some s := by
      simp only [strField, hs, hb, Bool.false_eq_true, if_false]
    show (match strField pd "username" with
          | some s => some s
          | none => account.username) = some s
    rw [hsf]
  · intro hsf
    show (match strField pd "username" with
          | some s => some s
          | none => account.username) = account.username
    rw [hsf]
  · intro s hs hne
    have hb : (s == "") = false := beq_eq_false_iff_ne.mpr hne
    have hsf : strField pd "name" = some s := by
      simp only [strField, hs, hb, Bool.false_eq_true, if_false]
    show (match strField pd "name" with
          | some s => some s
          | none =>
            match strField pd "display_name" with
            | some s => some s
            | none => account.display_name) = some s
    rw [hsf]
  · intro hn s hs hne
    have hb : (s == "") = false := beq_eq_false_iff_ne.mpr hne
    have hsf : strField pd "display_name" = some s := by
      simp only [strField, hs, hb, Bool.false_eq_true, if_false]
    show (match strField pd "name" with
          | some s => some s
          | none =>
            match strField pd "display_name" with
            | some s => some s
            | none => account.display_name) = some s
    rw [hn, hsf]
  · intro hn hd
    show (match strField pd "name" with
          | some s => some s
          | none =>
            match strField pd "display_name" with
            | some s => some s
            | none => account.display_name) = account.display_name
    rw [hn, hd]

/-- Witness for C9's amended theorem: a flat profile with non-empty
`username` and `name` overlays both cached fields; the TikTok fixture's
cached fields survive a nested response. -/
theorem C9_refresh_profile_overlay_witness :
    ∃ account',
      refresh_account [c9Acct] "u1" .tiktok
        (.ok (Json.obj [("username", Json.str "newhandle"),
          ("name", Json.str "New Name")])) true =
        ⟨.ok account', replaceById [c9Acct] account', ⟨true, true⟩⟩
      ∧ account'.username = some "newhandle"
      ∧ account'.display_name = some "New Name"
      ∧ account'.is_verified = c9Acct.is_verified := by
  obtain ⟨account', h1, h2, -, h4, -, -, -, -, -, -, -, -, -, -, h15, -⟩ :=
    C9_refresh_profile_overlay [c9Acct] "u1" .tiktok
      (Json.obj [("username", Json.str "newhandle"), ("name", Json.str "New Name")])
      c9Acct rfl
  exact ⟨account', h1, h2 "newhandle" rfl (by decide),
    h4 "New Name" rfl (by decide), h15⟩

theorem countP_bool_split {α : Type} (l : List α) (p : α → Bool) :
    l.countP p + l.countP (fun a => !p a) = l.length := by
  induction l with
  | nil => rfl
  | cons a t ih =>
    simp only [List.countP_cons, List.length_cons]
    cases hp : p a <;> simp [hp] <;> omega

theorem refresh_counters_partition (store : Store) (th : Int)
    (sup : Platform → Bool) (orc : SocialAccount → Res TokenData) :
    store.countP (fun a =>
      ((refreshItemOpt th sup orc a).map ItemOutcome.isSuccess).getD false)
    + store.countP (fun a =>
      ((refreshItemOpt th sup orc a).map ItemOutcome.isFailed).getD false)
    + store.countP (fun a =>
      ((refreshItemOpt th sup orc a).map ItemOutcome.isSkipped).getD false)
    = (store.filter (isRefreshCandidate th)).length := by
  induction store with
  | nil => rfl
  | cons a t ih =>
    simp only [List.countP_cons, List.filter_cons]
    by_cases hc : isRefreshCandidate th a = true
    · have hio : refreshItemOpt th sup orc a = some (refresh_item sup orc a) := by
        unfold refreshItemOpt
        rw [if_pos hc]
      cases ho : refresh_item sup orc a <;>
        simp [hio, ho, hc, ItemOutcome.isSuccess, ItemOutcome.isFailed,
          ItemOutcome.isSkipped] <;>
        omega
    · have hio : refreshItemOpt th sup orc a = none := by
        unfold refreshItemOpt
        rw [if_neg hc]
      have hcb : isRefreshCandidate th a = false := by
        cases h : isRefreshCandidate th a
        · rfl
        · exact absurd h hc
      simp [hio, hcb]
      omega

/-- C7 (amended): whenever its own database interaction succeeds,
`refresh_all_tokens` returns the aggregate counts record for every store and
every provider-refresh oracle — per-item failures never surface as an
exception — and the three counters together account for exactly the
candidate rows. -/
theorem C7_always_returns_counts_when_db_ok (store : Store) (now hours : Int)
    (sup : Platform → Bool) (orc : SocialAccount → Res TokenData) :
    ∃ stats store',
      refresh_all_tokens store now hours sup orc true = (.ok stats, store')
      ∧ stats.success + stats.failed + stats.skipped =
          (store.filter (isRefreshCandidate (now + hours * 3600))).length := by
  refine ⟨_, _, rfl, ?_⟩
  exact refresh_counters_partition store (now + hours * 3600) sup orc

theorem refresh_item_of_unskippable (sup : Platform → Bool)
    (orc : SocialAccount → Res TokenData) (a : SocialAccount) (p : Platform)
    (hp : Platform.ofString a.platform = some p) (hs : sup p = true)
    (rt : String) (hrt : a.get_refresh_token = some rt) (hne : rt ≠ "") :
    refresh_item sup orc a =
      match orc a with
      | .ok td => .success (a.update_tokens td.access_token
          (some (td.refresh_token.getD rt)) td.expires_at)
      | .err _ => .failed := by
  have hns : (!sup p) = false := by rw [hs]; rfl
  have hb : (rt == "") = false := beq_eq_false_iff_ne.mpr hne
  unfold refresh_item
  simp only [hp, hns, Bool.false_eq_true, if_false, hrt, hb]
  cases orc a <;> rfl

/-- C3: for a set of N refresh candidates of which exactly K throw during
the provider refresh call and none are skipped (every candidate's platform
value parses, supports refresh tokens, and decrypts to a non-empty refresh
token), `refresh_all_tokens` returns `{success: N-K, failed: K, skipped: 0}`
and commits the N-K successful `update_tokens` mutations; each per-item
exception is only counted, never aborting the remaining candidates. -/
theorem C3_batch_isolation (store : Store) (now hours : Int)
    (sup : Platform → Bool) (orc : SocialAccount → Res TokenData)
    (H : ∀ a ∈ store, isRefreshCandidate (now + hours * 3600) a = true →
      ((Platform.ofString a.platform).map sup).getD false = true ∧
      a.get_refresh_token ≠ some "") :
    ((refresh_all_tokens store now hours sup orc true).1 =
      .ok { success := (store.filter (isRefreshCandidate (now + hours * 3600))).length
              - ((store.filter (isRefreshCandidate (now + hours * 3600))).filter
                  (fun a => !(orc a).isOk)).length
            failed := ((store.filter (isRefreshCandidate (now + hours * 3600))).filter
                  (fun a => !(orc a).isOk)).length
            skipped := 0 })
    ∧ (refresh_all_tokens store now hours sup orc true).2 =
        store.map (refreshRow (now + hours * 3600) sup orc)
    ∧ (∀ a ∈ store, isRefreshCandidate (now + hours * 3600) a = true →
        ∀ td, orc a = .ok td → ∀ rt, a.get_refresh_token = some rt →
          refreshRow (now + hours * 3600) sup orc a =
            a.update_tokens td.access_token
              (some (td.refresh_token.getD rt)) td.expires_at) := by
  have hitem : ∀ a ∈ store, isRefreshCandidate (now + hours * 3600) a = true →
      refresh_item sup orc a =
        match orc a with
        | .ok td => .success (a.update_tokens td.access_token
            (some (td.refresh_token.getD (decrypt_token (a.refresh_token.getD ""))))
            td.expires_at)
        | .err _ => .failed := by
    intro a ha hc
    obtain ⟨h1, h2⟩ := H a ha hc
    cases hmp : Platform.ofString a.platform with
    | none =>
      rw [hmp] at h1
      simp at h1
    | some p =>
      rw [hmp] at h1
      simp at h1
      have hsome : a.refresh_token.isSome = true := by
        unfold isRefreshCandidate at hc
        cases hx : a.refresh_token.isSome
        · rw [hx] at hc
          simp at hc
        · rfl
      obtain ⟨enc, henc⟩ := Option.isSome_iff_exists.mp hsome
      have hrt : a.get_refresh_token = some (decrypt_token enc) := by
        unfold SocialAccount.get_refresh_token
        rw [henc]
        rfl
      have hgd : a.refresh_token.getD "" = enc := by rw [henc]; rfl
      have hne : decrypt_token enc ≠ "" := by
        intro hcontra
        exact h2 (by rw [hrt, hcontra])
      rw [hgd]
      exact refresh_item_of_unskippable sup orc a p hmp h1 (decrypt_token enc) hrt hne
  refine ⟨?_, rfl, ?_⟩
  · have heq : (refresh_all_tokens store now hours sup orc true).1 =
        .ok { success := store.countP (fun a =>
                ((refreshItemOpt (now + hours * 3600) sup orc a).map
                  ItemOutcome.isSuccess).getD false)
              failed := store.countP (fun a =>
                ((refreshItemOpt (now + hours * 3600) sup orc a).map
                  ItemOutcome.isFailed).getD false)
              skipped := store.countP (fun a =>
                ((refreshItemOpt (now + hours * 3600) sup orc a).map
                  ItemOutcome.isSkipped).getD false) } := rfl
    have hS : store.countP (fun a =>
        ((refreshItemOpt (now + hours * 3600) sup orc a).map
          ItemOutcome.isSuccess).getD false) =
        (store.filter (isRefreshCandidate (now + hours * 3600))).countP
          (fun a => (orc a).isOk) := by
      rw [List.countP_filter]
      refine List.countP_congr (fun a ha => ?_)
      unfold refreshItemOpt
      by_cases hc : isRefreshCandidate (now + hours * 3600) a = true
      · rw [if_pos hc, hitem a ha hc]
        cases ho : orc a <;> simp [ho, hc, ItemOutcome.isSuccess, Res.isOk]
      · rw [if_neg hc]
        have hcb : isRefreshCandidate (now + hours * 3600) a = false := by
          cases h : isRefreshCandidate (now + hours * 3600) a
          · rfl
          · exact absurd h hc
        simp [hcb]
    have hF : store.countP (fun a =>
        ((refreshItemOpt (now + hours * 3600) sup orc a).map
          ItemOutcome.isFailed).getD false) =
        (store.filter (isRefreshCandidate (now + hours * 3600))).countP
          (fun a => !(orc a).isOk) := by
      rw [List.countP_filter]
      refine List.countP_congr (fun a ha => ?_)
      unfold refreshItemOpt
      by_cases hc : isRefreshCandidate (now + hours * 3600) a = true
      · rw [if_pos hc, hitem a ha hc]
        cases ho : orc a <;> simp [ho, hc, ItemOutcome.isFailed, Res.isOk]
      · rw [if_neg hc]
        have hcb : isRefreshCandidate (now + hours * 3600) a = false := by
          cases h : isRefreshCandidate (now + hours * 3600) a
          · rfl
          · exact absurd h hc
        simp [hcb]
    have hK : store.countP (fun a =>
        ((refreshItemOpt (now + hours * 3600) sup orc a).map
          ItemOutcome.isSkipped).getD false) = 0 := by
      refine List.countP_eq_zero.mpr (fun a ha => ?_)
      unfold refreshItemOpt
      by_cases hc : isRefreshCandidate (now + hours * 3600) a = true
      · rw [if_pos hc, hitem a ha hc]
        cases ho : orc a <;> simp [ho, ItemOutcome.isSkipped]
      · rw [if_neg hc]
        simp
    have hsplit := countP_bool_split
      (store.filter (isRefreshCandidate (now + hours * 3600)))
      (fun a => (orc a).isOk)
    have hlenF := List.countP_eq_length_filter
      (fun a => !(orc a).isOk)
      (store.filter (isRefreshCandidate (now + hours * 3600)))
    have h2 : (store.filter (isRefreshCandidate (now + hours * 3600))).countP
        (fun a => (orc a).isOk) =
        (store.filter (isRefreshCandidate (now + hours * 3600))).length -
        ((store.filter (isRefreshCandidate (now + hours * 3600))).filter
          (fun a => !(orc a).isOk)).length := by
      rw [← hlenF]
      omega
    rw [heq, hS, hF, hK, hlenF, h2]
  · intro a ha hc td htd rt hrt
    unfold refreshRow refreshItemOpt
    rw [if_pos hc, hitem a ha hc, htd]
    have hdec : decrypt_token (a.refresh_token.getD "") = rt := by
      cases henc : a.refresh_token with
      | none =>
        unfold SocialAccount.get_refresh_token at hrt
        rw [henc] at hrt
        exact absurd hrt (by simp)
      | some enc =>
        unfold SocialAccount.get_refresh_token at hrt
        rw [henc] at hrt
        simp at hrt
        exact hrt
    simp only [hdec]
    rfl

/-- Witness for C3: two candidates (one provider success, one provider
exception) and one non-candidate yield `{success: 1, failed: 1, skipped: 0}`
and a committed store where only the successful candidate's tokens rotated. -/
theorem C3_batch_isolation_witness :
    (refresh_all_tokens [c3AcctOk, c3AcctBad, c3AcctFar] 0 24 (fun _ => true)
        c3Oracle true).1 = .ok { success := 1, failed := 1, skipped := 0 }
    ∧ (refresh_all_tokens [c3AcctOk, c3AcctBad, c3AcctFar] 0 24 (fun _ => true)
        c3Oracle true).2 =
      [c3AcctOk.update_tokens "newA" (some "newRefA") (some 9000),
        c3AcctBad, c3AcctFar] := by
  have h := C3_batch_isolation [c3AcctOk, c3AcctBad, c3AcctFar] 0 24
    (fun _ => true) c3Oracle (by decide)
  exact ⟨h.1.trans (by decide), h.2.1.trans (by decide)⟩

theorem eq_of_uniqueIds {store : Store} (hid : UniqueIds store)
    {a e : SocialAccount} (ha : a ∈ store) (he : e ∈ store)
    (h : a.id = e.id) : a = e := by
  induction store with
  | nil => cases ha
  | cons x l ih =>
    have hx := List.pairwise_cons.mp hid
    cases List.mem_cons.mp ha with
    | inl hax =>
      cases List.mem_cons.mp he with
      | inl hex => rw [hax, hex]
      | inr hel =>
        subst hax
        exact absurd h (hx.1 e hel)
    | inr hal =>
      cases List.mem_cons.mp he with
      | inl hex =>
        subst hex
        exact absurd h.symm ((hx.1 a hal) ∘ Eq.symm ∘ Eq.symm)
      | inr hel => exact ih hx.2 hal hel

theorem length_filter_map_eq {α : Type} (l : List α) (f : α → α)
    (pred : α → Bool) (h : ∀ a ∈ l, pred (f a) = pred a) :
    ((l.map f).filter pred).length = (l.filter pred).length := by
  induction l with
  | nil => rfl
  | cons x t ih =>
    simp only [List.map_cons, List.filter_cons]
    rw [h x (List.mem_cons_self x t)]
    have iht := ih (fun a ha => h a (List.mem_cons_of_mem x ha))
    cases hx : pred x <;> simp [hx, iht]

theorem pairCount_replaceById (store : Store) (e u : SocialAccount)
    (hid : UniqueIds store) (he : e ∈ store) (hidq : u.id = e.id)
    (hp : u.platform = e.platform) (ha : u.account_id = e.account_id) :
    ∀ p aid, pairCount (replaceById store u) p aid = pairCount store p aid := by
  intro p aid
  unfold pairCount replaceById
  refine length_filter_map_eq store _ _ (fun a hmem => ?_)
  by_cases hcase : (a.id == u.id) = true
  · have haeq : a = e :=
      eq_of_uniqueIds hid hmem he ((beq_iff_eq.mp hcase).trans hidq)
    rw [if_pos hcase, haeq, hp, ha]
  · rw [if_neg hcase]

theorem pairCount_append_single (store : Store) (a0 : SocialAccount)
    (p : Platform) (aid : String) :
    pairCount (store ++ [a0]) p aid = pairCount store p aid +
      (if (a0.platform == p.value && a0.account_id == aid) = true then 1 else 0) := by
  unfold pairCount
  rw [List.filter_append, List.length_append]
  congr 1
  by_cases h : (a0.platform == p.value && a0.account_id == aid) = true
  · rw [if_pos h]
    simp [List.filter_cons, h]
  · rw [if_neg h]
    simp only [Bool.not_eq_true] at h
    simp [List.filter_cons, h]

theorem pairCount_eq_zero_of_no_dup (store : Store) (pl : Platform)
    (aid : String) (h : check_duplicate_account store pl aid = none) :
    pairCount store pl aid = 0 := by
  unfold check_duplicate_account at h
  unfold pairCount
  rw [List.filter_eq_nil_iff.mpr (List.find?_eq_none.mp h)]
  rfl

/-- Counterexample for C1: the uniqueness invariant is not preserved by
every operation.  Two different users whose ids share the first 8
characters both call `link_manual_account` with the same username on the
same platform; both calls succeed, and the resulting store holds two links
with the identical pair `(tiktok, "manual_handle_user_aaa")` owned by
different users. -/
theorem C1_cx_manual_link_breaks_pair_uniqueness :
    (link_manual_account [] "user_aaa1" "tiktok" "handle" "m1").1.isOk = true
    ∧ (link_manual_account c1Store1 "user_aaa2" "tiktok" "handle" "m2").1.isOk = true
    ∧ pairCount c1Store2 .tiktok "manual_handle_user_aaa" = 2
    ∧ (∃ x ∈ c1Store2, ∃ y ∈ c1Store2,
        x.platform = y.platform ∧ x.account_id = y.account_id ∧ x.user_id ≠ y.user_id)
    ∧ ¬ UniquePairs c1Store2 := by
  refine ⟨rfl, rfl, by decide, by decide, fun h => ?_⟩
  have h2 := h .tiktok "manual_handle_user_aaa"
  rw [show pairCount c1Store2 .tiktok "manual_handle_user_aaa" = 2 from by decide] at h2
  omega

/-- C1 (amended): `link_account` preserves pair uniqueness and behaves as
claimed — a cross-user duplicate raises Conflict and leaves the store
unchanged, a same-user re-link updates in place and keeps every pair count
(hence the count 1 for that triple) unchanged, and a fresh link keeps the
store satisfying the at-most-one invariant.  (`link_manual_account` does not
preserve the invariant — see the counterexample.) -/
theorem C1_uniqueness (store : Store) (u : String) (pl : Platform)
    (aid tok : String) (rtk : Option String) (ea : Option Int)
    (sc un dn : Option String) (nid : String) :
    (∀ e, check_duplicate_account store pl aid = some e → e.user_id ≠ u →
      link_account store u pl aid tok rtk ea sc un dn nid =
        (.err (.valueError ("Account " ++ aid ++ " on " ++ pl.value ++
          " is already linked to another user")), store))
    ∧ (∀ e, check_duplicate_account store pl aid = some e → e.user_id = u →
      UniqueIds store →
      (link_account store u pl aid tok rtk ea sc un dn nid).1.isOk = true
      ∧ ∀ p2 aid2,
          pairCount (link_account store u pl aid tok rtk ea sc un dn nid).2 p2 aid2
            = pairCount store p2 aid2)
    ∧ (UniqueIds store → UniquePairs store →
      UniquePairs (link_account store u pl aid tok rtk ea sc un dn nid).2) := by
  refine ⟨fun e hdup hne => ?_, fun e hdup heq hid => ?_, fun hid huniq => ?_⟩
  · have hb : (e.user_id != u) = true := by simp [bne, hne]
    unfold link_account
    simp only [hdup, hb, if_true]
  · have hb : (e.user_id != u) = false := by simp [bne, heq]
    constructor
    · unfold link_account
      simp only [hdup, hb, Bool.false_eq_true, if_false]
      rfl
    · intro p2 aid2
      unfold link_account
      simp only [hdup, hb, Bool.false_eq_true, if_false]
      exact pairCount_replaceById store e
        { e.update_tokens tok rtk ea with
          scope := sc, username := un, display_name := dn }
        hid (List.mem_of_find?_eq_some hdup) rfl rfl rfl p2 aid2
  · cases hdup : check_duplicate_account store pl aid with
    | some e =>
      by_cases hu : (e.user_id != u) = true
      · unfold link_account
        simp only [hdup, hu, if_true]
        exact huniq
      · unfold link_account
        simp only [hdup, hu, Bool.false_eq_true, if_false]
        intro p2 aid2
        have hre := pairCount_replaceById store e
          { e.update_tokens tok rtk ea with
            scope := sc, username := un, display_name := dn }
          hid (List.mem_of_find?_eq_some hdup) rfl rfl rfl p2 aid2
        exact hre.trans_le (huniq p2 aid2)
    | none =>
      unfold link_account
      simp only [hdup]
      intro p2 aid2
      rw [pairCount_append_single]
      dsimp only
      by_cases hmatch : ((pl.value == p2.value) && (aid == aid2)) = true
      · rw [if_pos hmatch]
        simp only [Bool.and_eq_true, beq_iff_eq] at hmatch
        have hpe : pl = p2 := Platform.value_injective hmatch.1
        have hz : pairCount store p2 aid2 = 0 := by
          rw [← hpe, ← hmatch.2]
          exact pairCount_eq_zero_of_no_dup store pl aid hdup
        omega
      · rw [if_neg hmatch]
        have hle := huniq p2 aid2
        omega

/-- Witness for C1's amended theorem: on a store holding `acct_1`/twitter
for `u1`, a link attempt by `u2` raises the Conflict error and leaves the
store unchanged, while a re-link by `u1` succeeds and keeps the pair count
at 1. -/
theorem C1_uniqueness_witness :
    link_account [c1Acct] "u2" .twitter "acct_1" "tok2" none none none none none "n1" =
      (.err (.valueError
        "Account acct_1 on twitter is already linked to another user"), [c1Acct])
    ∧ (link_account [c1Acct] "u1" .twitter "acct_1" "tok2"
        none none none none none "n1").1.isOk = true
    ∧ pairCount (link_account [c1Acct] "u1" .twitter "acct_1" "tok2"
        none none none none none "n1").2 .twitter "acct_1"
      = pairCount [c1Acct] .twitter "acct_1"
    ∧ pairCount [c1Acct] .twitter "acct_1" = 1 := by
  have hA := (C1_uniqueness [c1Acct] "u2" .twitter "acct_1" "tok2"
    none none none none none "n1").1 c1Acct rfl (by decide)
  have hB := (C1_uniqueness [c1Acct] "u1" .twitter "acct_1" "tok2"
    none none none none none "n1").2.1 c1Acct rfl rfl (by simp [UniqueIds])
  exact ⟨hA.trans (by decide), hB.1, hB.2 .twitter "acct_1", by decide⟩
